import Mathlib

set_option linter.unusedVariables false

/-!
Shallow embedding of the `WebScraperAI` orchestrator from `backend.py` of the
AI-Webscrapper repository.

External effects (the search provider, the page fetch plus article parse, the
summarization provider, sentence tokenization) are modelled as oracle
parameters; everything the Python code itself does with their results is
translated faithfully.  Python `dict`s (which preserve insertion order and
update in place) are modelled as association lists with an in-place insert;
Python strings are Lean `String`s, with Python slicing and stripping defined
explicitly over the character list.
-/

namespace Webscraper

/-- Characters stripped by Python `str.strip()` (the ASCII whitespace set). -/
def isPySpace (c : Char) : Bool :=
  c = ' ' || c = '\t' || c = '\n' || c = '\r' || c = '\x0b' || c = '\x0c'

/-- Python `s.strip()`: remove leading and trailing whitespace characters. -/
def pyStrip (s : String) : String :=
  String.mk (((s.toList.dropWhile isPySpace).reverse.dropWhile isPySpace).reverse)

/-- Python `s[:n]`: the first `n` characters of `s`. -/
def pySliceTo (n : Nat) (s : String) : String :=
  String.mk (s.toList.take n)

/-- Insert-or-update for a Python `dict` modelled as an association list:
`d[k] = v` replaces the value in place when `k` is present (keeping its
position, as Python dicts do) and appends the binding at the end otherwise. -/
def alistInsert {α : Type} (k : String) (v : α) : List (String × α) → List (String × α)
  | [] => [(k, v)]
  | (k1, v1) :: rest =>
      if k1 = k then (k, v) :: rest else (k1, v1) :: alistInsert k v rest

/-- Lookup in a Python `dict` modelled as an association list. -/
def alistLookup {α : Type} (k : String) : List (String × α) → Option α
  | [] => none
  | (k1, v1) :: rest => if k1 = k then some v1 else alistLookup k rest

/-- The fields `newspaper.Article` exposes after `download()` + `parse()`. -/
structure ParsedArticle where
  title : String
  text : String
  publish_date : Option String
  authors : List String
  top_image : String
  deriving Repr, DecidableEq

/-- Outcome of `Article(url); article.download(); article.parse()` for one URL:
either some exception is raised, or parsing yields the article fields. -/
inductive FetchResult where
  | err
  | ok (article : ParsedArticle)
  deriving Repr, DecidableEq

/-- The value stored in `self.content[url]` by `scrape_website`. -/
structure Document where
  title : String
  text : String
  publish_date : Option String
  authors : List String
  top_image : String
  source_url : String
  deriving Repr, DecidableEq

/-- The mutable fields of a `WebScraperAI` instance. -/
structure ScraperState where
  serpapi_key : String
  hf_api_key : String
  search_results : List String
  content : List (String × Document)
  summaries : List (String × String)
  failed_urls : List String
  deriving Repr, DecidableEq

/-- `WebScraperAI.__init__`: keys from the environment, every collection empty. -/
def initState (serp hf : String) : ScraperState :=
  { serpapi_key := serp, hf_api_key := hf, search_results := [],
    content := [], summaries := [], failed_urls := [] }

/-- `WebScraperAI.set_serpapi_key`. -/
def set_serpapi_key (k : String) (s : ScraperState) : ScraperState :=
  { s with serpapi_key := k }

/-- `WebScraperAI.set_hf_api_key`. -/
def set_hf_api_key (k : String) (s : ScraperState) : ScraperState :=
  { s with hf_api_key := k }

/-- `WebScraperAI.scrape_website(url)`.  `fetch` is the oracle giving the
outcome of the `newspaper` download/parse for each URL.  The Python guard
`not article.text or len(article.text.strip()) < 50` is equivalent to
`len(article.text.strip()) < 50` because the empty string strips to length 0. -/
def scrape_website (fetch : String → FetchResult) (url : String) (s : ScraperState) :
    Option Document × ScraperState :=
  match fetch url with
  | FetchResult.err => (none, { s with failed_urls := s.failed_urls ++ [url] })
  | FetchResult.ok a =>
      if (pyStrip a.text).length < 50 then
        (none, { s with failed_urls := s.failed_urls ++ [url] })
      else
        let doc : Document :=
          { title := a.title, text := a.text, publish_date := a.publish_date,
            authors := a.authors, top_image := a.top_image, source_url := url }
        (some doc, { s with content := alistInsert url doc s.content })

/-- The document `scrape_website` returns for a URL, which depends only on the
fetch outcome (state-independent part of the extraction). -/
def docOf (fetch : String → FetchResult) (url : String) : Option Document :=
  match fetch url with
  | FetchResult.err => none
  | FetchResult.ok a =>
      if (pyStrip a.text).length < 50 then none
      else some { title := a.title, text := a.text, publish_date := a.publish_date,
                  authors := a.authors, top_image := a.top_image, source_url := url }

/-- Whether the extraction of `url` fails (exception, or text too short). -/
def extractFails (fetch : String → FetchResult) (url : String) : Bool :=
  match fetch url with
  | FetchResult.err => true
  | FetchResult.ok a => (pyStrip a.text).length < 50

/-- The `for url in urls` loop of `batch_scrape`. -/
def batchGo (fetch : String → FetchResult) :
    List String → ScraperState → List (String × Document) × ScraperState
  | [], st => ([], st)
  | url :: rest, st =>
      let step := scrape_website fetch url st
      let tail := batchGo fetch rest step.2
      (match step.1 with
       | some d => (url, d) :: tail.1
       | none => tail.1, tail.2)

/-- `WebScraperAI.batch_scrape(urls)`: reset the failed list, then scrape each
URL in order, accumulating `(url, document)` pairs for the successes. -/
def batch_scrape (fetch : String → FetchResult) (urls : List String) (s : ScraperState) :
    List (String × Document) × ScraperState :=
  batchGo fetch urls { s with failed_urls := [] }

/-- Outcome of one HuggingFace inference POST: HTTP 200 with a parsed
`summary_text`, a non-200 response, or a transport/parsing exception. -/
inductive HfOutcome where
  | ok (summary : String)
  | httpErr
  | exn
  deriving Repr, DecidableEq

/-- `WebScraperAI._simple_summarize(text)` (default `num_sentences=5`):
`" ".join(sent_tokenize(text)[:5])`.  `tok` is the `sent_tokenize` oracle. -/
def simple_summarize (tok : String → List String) (text : String) : String :=
  String.intercalate " " ((tok text).take 5)

/-- `WebScraperAI.summarize_text(text, max_length)`.  `hf` is the oracle for
the provider call, as a function of the payload it is sent (input text after
truncation, and requested max length).  With no key (`if not self.hf_api_key`,
i.e. the empty string) the extractive fallback runs on the untruncated text;
with a key the text is first truncated to 5000 characters, and both error
branches fall back on the truncated text. -/
def summarize_text (tok : String → List String) (hf : String → Nat → HfOutcome)
    (key : String) (text : String) (max_length : Nat) : String :=
  if key = "" then simple_summarize tok text
  else
    let t := if 5000 < text.length then pySliceTo 5000 text else text
    match hf t max_length with
    | HfOutcome.ok summary => summary
    | HfOutcome.httpErr => simple_summarize tok t
    | HfOutcome.exn => simple_summarize tok t

/-- Outcome of one SerpAPI call: a response dict with an `organic_results`
list (each entry contributing its `link`), a response without that key, or a
raised exception. -/
inductive SearchOutcome where
  | organic (links : List String)
  | noOrganic
  | exn
  deriving Repr, DecidableEq

/-- The `ValueError` raised by `search_web` when no SerpAPI key is set. -/
inductive ConfigError where
  | serpKeyNotSet
  deriving Repr, DecidableEq

/-- `WebScraperAI.search_web(query, num_results)`.  Raising the `ValueError`
is modelled as `Except.error` paired with the unchanged state; note that
`self.search_results` is assigned only in the `organic_results` branch. -/
def search_web (outcome : SearchOutcome) (query : String) (num_results : Nat)
    (s : ScraperState) : Except ConfigError (List String) × ScraperState :=
  if s.serpapi_key = "" then (Except.error ConfigError.serpKeyNotSet, s)
  else
    match outcome with
    | SearchOutcome.organic links =>
        let r := links.take num_results
        (Except.ok r, { s with search_results := r })
    | SearchOutcome.noOrganic => (Except.ok [], s)
    | SearchOutcome.exn => (Except.ok [], s)

/-- The `for url, data in self.content.items()` loop of
`analyze_and_summarize`: accumulates `all_text` and writes each per-URL
summary into the summaries dict. -/
def analyzeGo (tok : String → List String) (hf : String → Nat → HfOutcome) (key : String) :
    List (String × Document) → String → List (String × String) →
    String × List (String × String)
  | [], allText, summ => (allText, summ)
  | (url, data) :: rest, allText, summ =>
      let summary := summarize_text tok hf key data.text 500
      analyzeGo tok hf key rest (allText ++ data.title ++ "\n" ++ data.text ++ "\n\n")
        (alistInsert url summary summ)

/-- `WebScraperAI.analyze_and_summarize()`: summarize each stored document,
then, if the concatenated text is non-empty (`if all_text:`), add an overall
summary under the key `"overall"` with `max_length=1000`; returns
`self.summaries`. -/
def analyze_and_summarize (tok : String → List String) (hf : String → Nat → HfOutcome)
    (s : ScraperState) : List (String × String) × ScraperState :=
  let r := analyzeGo tok hf s.hf_api_key s.content "" s.summaries
  let summ :=
    if r.1 = "" then r.2
    else alistInsert "overall" (summarize_text tok hf s.hf_api_key r.1 1000) r.2
  (summ, { s with summaries := summ })

/-- JSON values as produced by `json.dump` / consumed by `json.load`, at the
structure level (the shapes `save_results` actually writes). -/
inductive Json where
  | null
  | str (s : String)
  | arr (xs : List Json)
  | obj (fields : List (String × Json))
  deriving Repr

/-- The JSON object serialized for one stored document. -/
def encodeDoc (d : Document) : Json :=
  Json.obj
    [("title", Json.str d.title),
     ("text", Json.str d.text),
     ("publish_date", match d.publish_date with
       | none => Json.null
       | some p => Json.str p),
     ("authors", Json.arr (d.authors.map Json.str)),
     ("top_image", Json.str d.top_image),
     ("source_url", Json.str d.source_url)]

/-- `WebScraperAI.save_results()`: the structured document written to the
file — `{search_results, content, summaries, failed_urls}`. -/
def save_results (s : ScraperState) : Json :=
  Json.obj
    [("search_results", Json.arr (s.search_results.map Json.str)),
     ("content", Json.obj (s.content.map (fun p => (p.1, encodeDoc p.2)))),
     ("summaries", Json.obj (s.summaries.map (fun p => (p.1, Json.str p.2)))),
     ("failed_urls", Json.arr (s.failed_urls.map Json.str))]

/-- Reloading: a JSON string value back to a Lean string. -/
def decodeStr : Json → Option String
  | Json.str s => some s
  | _ => none

/-- Reloading: each element of a JSON array as a string (failing on any
non-string element). -/
def decodeStrs : List Json → Option (List String)
  | [] => some []
  | j :: rest =>
      match decodeStr j, decodeStrs rest with
      | some s, some l => some (s :: l)
      | _, _ => none

/-- Reloading: a JSON array of strings. -/
def decodeStrList : Json → Option (List String)
  | Json.arr xs => decodeStrs xs
  | _ => none

/-- Reloading: the `null`-or-string `publish_date` field. -/
def decodeOptStr : Json → Option (Option String)
  | Json.null => some none
  | Json.str s => some (some s)
  | _ => none

/-- Reloading: one document object written by `encodeDoc`. -/
def decodeDoc (j : Json) : Option Document :=
  match j with
  | Json.obj fields => do
      let title ← (alistLookup "title" fields).bind decodeStr
      let text ← (alistLookup "text" fields).bind decodeStr
      let pd ← (alistLookup "publish_date" fields).bind decodeOptStr
      let authors ← (alistLookup "authors" fields).bind decodeStrList
      let top ← (alistLookup "top_image" fields).bind decodeStr
      let src ← (alistLookup "source_url" fields).bind decodeStr
      some { title := title, text := text, publish_date := pd, authors := authors,
             top_image := top, source_url := src }
  | _ => none

/-- Reloading: each field of a JSON object through a value decoder, keeping
file order. -/
def decodeEntries {α : Type} (d : Json → Option α) :
    List (String × Json) → Option (List (String × α))
  | [] => some []
  | (k, j) :: rest =>
      match d j, decodeEntries d rest with
      | some v, some l => some ((k, v) :: l)
      | _, _ => none

/-- Reloading: an object whose values decode with `d`, kept in file order. -/
def decodeObjWith {α : Type} (d : Json → Option α) : Json → Option (List (String × α))
  | Json.obj fields => decodeEntries d fields
  | _ => none

/-- The structured record reconstructed from a saved file. -/
structure SavedResults where
  search_results : List String
  content : List (String × Document)
  summaries : List (String × String)
  failed_urls : List String
  deriving Repr, DecidableEq

/-- Reloading `scraper_results.json`: parse the four top-level fields. -/
def loadResults (j : Json) : Option SavedResults :=
  match j with
  | Json.obj fields => do
      let sr ← (alistLookup "search_results" fields).bind decodeStrList
      let content ← (alistLookup "content" fields).bind (decodeObjWith decodeDoc)
      let summ ← (alistLookup "summaries" fields).bind (decodeObjWith decodeStr)
      let failed ← (alistLookup "failed_urls" fields).bind decodeStrList
      some { search_results := sr, content := content, summaries := summ,
             failed_urls := failed }
  | _ => none

/-- Reachable states of one `WebScraperAI` instance: the constructor followed
by any sequence of its state-touching methods (with arbitrary oracle
outcomes).  `summarize_text`, `save_results`, `clear_data_folder` and
`suggest_alternative_resources` do not change the instance fields beyond the
`search_web` call the latter delegates to. -/
inductive Reachable : ScraperState → Prop where
  | init (serp hf : String) : Reachable (initState serp hf)
  | setSerp (k : String) (s : ScraperState) :
      Reachable s → Reachable (set_serpapi_key k s)
  | setHf (k : String) (s : ScraperState) :
      Reachable s → Reachable (set_hf_api_key k s)
  | search (outcome : SearchOutcome) (q : String) (n : Nat) (s : ScraperState) :
      Reachable s → Reachable (search_web outcome q n s).2
  | scrape (fetch : String → FetchResult) (url : String) (s : ScraperState) :
      Reachable s → Reachable (scrape_website fetch url s).2
  | batch (fetch : String → FetchResult) (urls : List String) (s : ScraperState) :
      Reachable s → Reachable (batch_scrape fetch urls s).2
  | analyze (tok : String → List String) (hf : String → Nat → HfOutcome) (s : ScraperState) :
      Reachable s → Reachable (analyze_and_summarize tok hf s).2

/-! ### Basic lemmas about the embedded operations -/

theorem alistInsert_ne_nil {α : Type} (k : String) (v : α) (l : List (String × α)) :
    alistInsert k v l ≠ [] := by
  cases l with
  | nil => simp [alistInsert]
  | cons p rest =>
      obtain ⟨k1, v1⟩ := p
      simp only [alistInsert]
      split <;> simp

theorem alistLookup_insert {α : Type} (u k : String) (v : α) (l : List (String × α)) :
    alistLookup u (alistInsert k v l) = if k = u then some v else alistLookup u l := by
  induction l with
  | nil => simp [alistInsert, alistLookup]
  | cons p rest ih =>
      obtain ⟨k1, v1⟩ := p
      by_cases h1 : k1 = k
      · subst h1
        by_cases h2 : k1 = u <;> simp [alistInsert, alistLookup, h2]
      · by_cases h2 : k1 = u
        · subst h2
          have hk : ¬ k = k1 := fun h => h1 h.symm
          simp [alistInsert, alistLookup, h1, hk]
        · simp [alistInsert, alistLookup, h1, h2, ih]

theorem scrape_website_fst (fetch : String → FetchResult) (url : String) (s : ScraperState) :
    (scrape_website fetch url s).1 = docOf fetch url := by
  unfold scrape_website docOf
  cases fetch url with
  | err => rfl
  | ok a => dsimp only; split <;> rfl

theorem scrape_website_failed (fetch : String → FetchResult) (url : String) (s : ScraperState) :
    (scrape_website fetch url s).2.failed_urls =
      s.failed_urls ++ (if extractFails fetch url then [url] else []) := by
  unfold scrape_website extractFails
  cases fetch url with
  | err => simp
  | ok a => dsimp only; split <;> simp_all

theorem scrape_website_summaries (fetch : String → FetchResult) (url : String)
    (s : ScraperState) :
    (scrape_website fetch url s).2.summaries = s.summaries := by
  unfold scrape_website
  cases fetch url with
  | err => rfl
  | ok a => dsimp only; split <;> rfl

theorem scrape_website_content_cases (fetch : String → FetchResult) (url : String)
    (s : ScraperState) :
    (scrape_website fetch url s).2.content = s.content ∨
      ∃ d : Document, (scrape_website fetch url s).2.content = alistInsert url d s.content := by
  unfold scrape_website
  cases fetch url with
  | err => exact Or.inl rfl
  | ok a =>
      dsimp only
      split
      · exact Or.inl rfl
      · exact Or.inr ⟨_, rfl⟩

theorem scrape_website_content_of_fails (fetch : String → FetchResult) (url : String)
    (s : ScraperState) (h : extractFails fetch url = true) :
    (scrape_website fetch url s).2.content = s.content := by
  unfold scrape_website
  unfold extractFails at h
  cases hf : fetch url with
  | err => rfl
  | ok a =>
      rw [hf] at h
      simp only [decide_eq_true_eq] at h
      simp [h]

theorem batchGo_fst (fetch : String → FetchResult) (urls : List String) (st : ScraperState) :
    (batchGo fetch urls st).1 =
      urls.filterMap (fun u => (docOf fetch u).map (fun d => (u, d))) := by
  induction urls generalizing st with
  | nil => rfl
  | cons url rest ih =>
      simp only [batchGo, List.filterMap_cons, scrape_website_fst]
      cases h : docOf fetch url <;> simp [ih]

theorem batchGo_failed (fetch : String → FetchResult) (urls : List String) (st : ScraperState) :
    (batchGo fetch urls st).2.failed_urls =
      st.failed_urls ++ urls.filter (fun u => extractFails fetch u) := by
  induction urls generalizing st with
  | nil => simp [batchGo]
  | cons url rest ih =>
      simp only [batchGo, List.filter_cons]
      rw [ih, scrape_website_failed]
      split <;> simp

theorem batchGo_summaries (fetch : String → FetchResult) (urls : List String)
    (st : ScraperState) :
    (batchGo fetch urls st).2.summaries = st.summaries := by
  induction urls generalizing st with
  | nil => rfl
  | cons url rest ih => rw [batchGo]; rw [ih, scrape_website_summaries]

theorem batchGo_content_nil (fetch : String → FetchResult) (urls : List String)
    (st : ScraperState) (h : (batchGo fetch urls st).2.content = []) : st.content = [] := by
  induction urls generalizing st with
  | nil => exact h
  | cons url rest ih =>
      rw [batchGo] at h
      have h1 := ih _ h
      rcases scrape_website_content_cases fetch url st with h2 | ⟨d, h2⟩
      · rw [h2] at h1; exact h1
      · rw [h2] at h1; exact absurd h1 (alistInsert_ne_nil url d st.content)

/-- C2 helper: the failed list after a batch, in closed form. -/
theorem batch_scrape_failed_eq (fetch : String → FetchResult) (urls : List String)
    (s : ScraperState) :
    (batch_scrape fetch urls s).2.failed_urls =
      urls.filter (fun u => extractFails fetch u) := by
  unfold batch_scrape
  rw [batchGo_failed]
  rfl

/-- C2: `batch_scrape` resets the failed-URL list first, so afterwards the
failed list is exactly the failing URLs of this invocation, whatever the prior
failed list held. -/
theorem batch_resets_failed_urls (fetch : String → FetchResult) (urls : List String)
    (s t : ScraperState) (hkey : s.serpapi_key = t.serpapi_key)
    (hhf : s.hf_api_key = t.hf_api_key) (hsr : s.search_results = t.search_results)
    (hc : s.content = t.content) (hsum : s.summaries = t.summaries) :
    (batch_scrape fetch urls s).2.failed_urls = (batch_scrape fetch urls t).2.failed_urls ∧
      (batch_scrape fetch urls s).2.failed_urls =
        urls.filter (fun u => extractFails fetch u) := by
  constructor
  · rw [batch_scrape_failed_eq, batch_scrape_failed_eq]
  · exact batch_scrape_failed_eq fetch urls s

/-- C2 witness: two states differing only in their prior failed lists give the
same failed list after `batch_scrape`, namely the current failures. -/
theorem batch_resets_failed_urls_witness :
    (batch_scrape (fun _ => FetchResult.err) ["a"]
        { initState "" "" with failed_urls := ["old1", "old2"] }).2.failed_urls =
      (batch_scrape (fun _ => FetchResult.err) ["a"] (initState "" "")).2.failed_urls ∧
    (batch_scrape (fun _ => FetchResult.err) ["a"]
        { initState "" "" with failed_urls := ["old1", "old2"] }).2.failed_urls =
      (["a"] : List String).filter
        (fun u => extractFails (fun _ => FetchResult.err) u) :=
  batch_resets_failed_urls (fun _ => FetchResult.err) ["a"]
    { initState "" "" with failed_urls := ["old1", "old2"] } (initState "" "")
    rfl rfl rfl rfl rfl

/-- C3: `batch_scrape` returns exactly the `(url, document)` pairs of the
successfully extracted URLs, in input order; failing URLs contribute nothing
to the returned sequence. -/
theorem batch_returns_successes_in_order (fetch : String → FetchResult)
    (urls : List String) (s : ScraperState) :
    (batch_scrape fetch urls s).1 =
      urls.filterMap (fun u => (docOf fetch u).map (fun d => (u, d))) := by
  unfold batch_scrape
  exact batchGo_fst fetch urls _

/-- C10: each failing URL is appended once per occurrence in the input, so a
failing URL occurring twice in the input occurs twice in the failed list. -/
theorem batch_failed_counts_multiplicity (fetch : String → FetchResult)
    (urls : List String) (s : ScraperState) (u : String)
    (h : extractFails fetch u = true) :
    ((batch_scrape fetch urls s).2.failed_urls).count u = urls.count u := by
  rw [batch_scrape_failed_eq]
  exact List.count_filter h

/-- C10 witness: a failing URL listed twice appears twice in the failed list. -/
theorem batch_failed_counts_multiplicity_witness :
    ((batch_scrape (fun _ => FetchResult.err) ["u", "u"] (initState "" "")).2.failed_urls).count
        "u" = (["u", "u"] : List String).count "u" :=
  batch_failed_counts_multiplicity (fun _ => FetchResult.err) ["u", "u"] (initState "" "")
    "u" rfl

theorem search_web_content (o : SearchOutcome) (q : String) (n : Nat) (s : ScraperState) :
    (search_web o q n s).2.content = s.content := by
  unfold search_web
  split
  · rfl
  · cases o <;> rfl

theorem search_web_summaries (o : SearchOutcome) (q : String) (n : Nat) (s : ScraperState) :
    (search_web o q n s).2.summaries = s.summaries := by
  unfold search_web
  split
  · rfl
  · cases o <;> rfl

theorem analyze_and_summarize_content (tok : String → List String)
    (hf : String → Nat → HfOutcome) (s : ScraperState) :
    (analyze_and_summarize tok hf s).2.content = s.content := rfl

theorem analyze_and_summarize_snd_summaries (tok : String → List String)
    (hf : String → Nat → HfOutcome) (s : ScraperState) :
    (analyze_and_summarize tok hf s).2.summaries = (analyze_and_summarize tok hf s).1 := rfl

theorem analyze_of_content_nil (tok : String → List String) (hf : String → Nat → HfOutcome)
    (s : ScraperState) (hc : s.content = []) :
    (analyze_and_summarize tok hf s).1 = s.summaries := by
  unfold analyze_and_summarize
  rw [hc]
  simp [analyzeGo]

/-- The invariant behind C1: every document in the content map has text of
trimmed length at least 50. -/
def contentOk (s : ScraperState) : Prop :=
  ∀ url doc, alistLookup url s.content = some doc → 50 ≤ (pyStrip doc.text).length

theorem scrape_website_contentOk (fetch : String → FetchResult) (url : String)
    (s : ScraperState) (h : contentOk s) : contentOk (scrape_website fetch url s).2 := by
  unfold scrape_website
  cases hf : fetch url with
  | err => exact h
  | ok a =>
      dsimp only
      split
      · exact h
      · next h50 =>
          intro u doc hl
          rw [alistLookup_insert] at hl
          split at hl
          · cases hl
            exact Nat.le_of_not_lt h50
          · exact h u doc hl

theorem batchGo_contentOk (fetch : String → FetchResult) (urls : List String)
    (st : ScraperState) (h : contentOk st) : contentOk (batchGo fetch urls st).2 := by
  induction urls generalizing st with
  | nil => exact h
  | cons url rest ih =>
      rw [batchGo]
      exact ih _ (scrape_website_contentOk fetch url st h)

theorem reachable_contentOk (s : ScraperState) (h : Reachable s) : contentOk s := by
  induction h with
  | init serp hf =>
      intro url doc hl
      simp [initState, alistLookup] at hl
  | setSerp k s hs ih => exact ih
  | setHf k s hs ih => exact ih
  | search outcome q n s hs ih =>
      intro url doc hl
      rw [search_web_content] at hl
      exact ih url doc hl
  | scrape fetch url s hs ih => exact scrape_website_contentOk fetch url s ih
  | batch fetch urls s hs ih => exact batchGo_contentOk fetch urls _ ih
  | analyze tok hf s hs ih =>
      intro url doc hl
      rw [analyze_and_summarize_content] at hl
      exact ih url doc hl

/-- C1: in every reachable state, a document exists in the content map under a
URL only if its text has trimmed length at least 50; and whenever extraction
yields text of trimmed length below 50, or raises, `scrape_website` stores no
document and appends the URL to the failed-URL list. -/
theorem extract_minlength_invariant (s : ScraperState) (h : Reachable s) :
    (∀ url doc, alistLookup url s.content = some doc → 50 ≤ (pyStrip doc.text).length) ∧
    (∀ fetch url a, fetch url = FetchResult.ok a → (pyStrip a.text).length < 50 →
      (scrape_website fetch url s).1 = none ∧
      (scrape_website fetch url s).2.content = s.content ∧
      (scrape_website fetch url s).2.failed_urls = s.failed_urls ++ [url]) ∧
    (∀ fetch url, fetch url = FetchResult.err →
      (scrape_website fetch url s).1 = none ∧
      (scrape_website fetch url s).2.content = s.content ∧
      (scrape_website fetch url s).2.failed_urls = s.failed_urls ++ [url]) := by
  refine ⟨reachable_contentOk s h, ?_, ?_⟩
  · intro fetch url a hfu h50
    unfold scrape_website
    rw [hfu]
    simp [h50]
  · intro fetch url hfu
    unfold scrape_website
    rw [hfu]
    simp

/-- C1 witness: from the initial state, extracting a page whose text strips to
fewer than 50 characters stores nothing and records the URL as failed. -/
theorem extract_minlength_invariant_witness :
    (scrape_website (fun _ => FetchResult.ok ⟨"t", "short", none, [], "i"⟩) "u"
        (initState "" "")).1 = none ∧
    (scrape_website (fun _ => FetchResult.ok ⟨"t", "short", none, [], "i"⟩) "u"
        (initState "" "")).2.content = (initState "" "").content ∧
    (scrape_website (fun _ => FetchResult.ok ⟨"t", "short", none, [], "i"⟩) "u"
        (initState "" "")).2.failed_urls = (initState "" "").failed_urls ++ ["u"] :=
  (extract_minlength_invariant (initState "" "") (Reachable.init "" "")).2.1
    (fun _ => FetchResult.ok ⟨"t", "short", none, [], "i"⟩) "u"
    ⟨"t", "short", none, [], "i"⟩ rfl (by decide)

theorem reachable_content_nil_summaries (s : ScraperState) (h : Reachable s) :
    s.content = [] → s.summaries = [] := by
  induction h with
  | init serp hf => intro _; rfl
  | setSerp k s hs ih => exact ih
  | setHf k s hs ih => exact ih
  | search outcome q n s hs ih =>
      intro hc
      rw [search_web_content] at hc
      rw [search_web_summaries]
      exact ih hc
  | scrape fetch url s hs ih =>
      intro hc
      rw [scrape_website_summaries]
      rcases scrape_website_content_cases fetch url s with h2 | ⟨d, h2⟩
      · rw [h2] at hc; exact ih hc
      · rw [h2] at hc; exact absurd hc (alistInsert_ne_nil url d s.content)
  | batch fetch urls s hs ih =>
      intro hc
      unfold batch_scrape at hc ⊢
      rw [batchGo_summaries]
      exact ih (batchGo_content_nil fetch urls { s with failed_urls := [] } hc)
  | analyze tok hf s hs ih =>
      intro hc
      rw [analyze_and_summarize_content] at hc
      rw [analyze_and_summarize_snd_summaries, analyze_of_content_nil tok hf s hc]
      exact ih hc

/-- C5: in every reachable state whose content map is empty,
`analyze_and_summarize` returns an empty summary table, in particular one with
no `"overall"` key. -/
theorem analyze_empty_content_empty_table (tok : String → List String)
    (hf : String → Nat → HfOutcome) (s : ScraperState) (h : Reachable s)
    (hc : s.content = []) :
    (analyze_and_summarize tok hf s).1 = [] ∧
      alistLookup "overall" (analyze_and_summarize tok hf s).1 = none := by
  have h1 : (analyze_and_summarize tok hf s).1 = [] := by
    rw [analyze_of_content_nil tok hf s hc]
    exact reachable_content_nil_summaries s h hc
  exact ⟨h1, by rw [h1]; rfl⟩

/-- C5 witness: on the freshly initialized orchestrator the content map is
empty and `analyze_and_summarize` returns the empty table. -/
theorem analyze_empty_content_empty_table_witness :
    (analyze_and_summarize (fun _ => []) (fun _ _ => HfOutcome.exn) (initState "" "")).1 = [] ∧
      alistLookup "overall"
        (analyze_and_summarize (fun _ => []) (fun _ _ => HfOutcome.exn)
          (initState "" "")).1 = none :=
  analyze_empty_content_empty_table (fun _ => []) (fun _ _ => HfOutcome.exn)
    (initState "" "") (Reachable.init "" "") rfl

/-- C4: with no summarization credential (empty key), `summarize_text` returns
the first five sentences of the tokenized text joined by single spaces; the
right-hand side does not mention `max_length`, so the result is independent of
it. -/
theorem summarize_no_credential_first_five (tok : String → List String)
    (hf : String → Nat → HfOutcome) (text : String) (max_length : Nat) :
    summarize_text tok hf "" text max_length =
      String.intercalate " " ((tok text).take 5) := by
  unfold summarize_text simple_summarize
  simp

/-- A text of 5001 identical characters: one character beyond the provider
input-size truncation threshold. -/
def longText : String := String.mk (List.replicate 5001 'a')

/-- With a key and a provider that always returns non-200, `summarize_text` on
an over-long text is the extractive fallback on the 5000-character slice. -/
theorem summarize_key_fail_slice (tok : String → List String) (key text : String)
    (m : Nat) (hkey : ¬ key = "") (h5 : 5000 < text.length) :
    summarize_text tok (fun _ _ => HfOutcome.httpErr) key text m =
      simple_summarize tok (pySliceTo 5000 text) := by
  unfold summarize_text
  rw [if_neg hkey]
  simp only [if_pos h5]

theorem longText_length : longText.length = 5001 := by
  unfold longText
  rw [String.length_mk, List.length_replicate]

theorem longText_slice_length : (pySliceTo 5000 longText).length = 5000 := by
  show ((List.replicate 5001 'a').take 5000).length = 5000
  rw [List.length_take, List.length_replicate]
  omega

/-- C6 counterexample: with a credential configured and the provider failing
(non-200), `summarize_text` on a 5001-character text differs from the
no-credential result, because the fallback runs on the 5000-character
truncation while the no-credential path runs on the full text. -/
theorem summarize_fallback_differs_from_no_credential :
    summarize_text (fun t => [t]) (fun _ _ => HfOutcome.httpErr) "k" longText 500 ≠
      summarize_text (fun t => [t]) (fun _ _ => HfOutcome.httpErr) "" longText 500 := by
  have hL : summarize_text (fun t => [t]) (fun _ _ => HfOutcome.httpErr) "k" longText 500 =
      pySliceTo 5000 longText := by
    rw [summarize_key_fail_slice (fun t => [t]) "k" longText 500 (by decide)
        (by rw [longText_length]; omega)]
    rfl
  have hR : summarize_text (fun t => [t]) (fun _ _ => HfOutcome.httpErr) "" longText 500 =
      longText := rfl
  rw [hL, hR]
  intro h
  have hlen2 := congrArg String.length h
  rw [longText_length, longText_slice_length] at hlen2
  exact absurd hlen2 (by decide)

/-- C6 amended: with a credential configured and every provider call failing
(non-200 or exception), `summarize_text` returns the extractive fallback
applied to the 5000-character truncation of the text; this coincides with the
no-credential result whenever the text has at most 5000 characters. -/
theorem summarize_fallback_on_provider_failure (tok : String → List String)
    (hf : String → Nat → HfOutcome) (key text : String) (max_length : Nat)
    (hkey : key ≠ "")
    (hfail : ∀ t m, hf t m = HfOutcome.httpErr ∨ hf t m = HfOutcome.exn) :
    summarize_text tok hf key text max_length =
      simple_summarize tok (if 5000 < text.length then pySliceTo 5000 text else text) ∧
    (text.length ≤ 5000 →
      summarize_text tok hf key text max_length =
        summarize_text tok hf "" text max_length) := by
  have hmain : summarize_text tok hf key text max_length =
      simple_summarize tok (if 5000 < text.length then pySliceTo 5000 text else text) := by
    unfold summarize_text
    rw [if_neg hkey]
    rcases hfail (if 5000 < text.length then pySliceTo 5000 text else text) max_length with
      h | h <;> simp only [h]
  refine ⟨hmain, fun hle => ?_⟩
  rw [hmain]
  have hnot : ¬ 5000 < text.length := Nat.not_lt.mpr hle
  rw [if_neg hnot]
  unfold summarize_text
  simp

/-- C6 amended witness: a short text under a failing provider gives the same
summary as the no-credential path. -/
theorem summarize_fallback_on_provider_failure_witness :
    summarize_text (fun t => [t]) (fun _ _ => HfOutcome.httpErr) "k" "hi" 500 =
      simple_summarize (fun t => [t])
        (if 5000 < ("hi" : String).length then pySliceTo 5000 "hi" else "hi") ∧
    (("hi" : String).length ≤ 5000 →
      summarize_text (fun t => [t]) (fun _ _ => HfOutcome.httpErr) "k" "hi" 500 =
        summarize_text (fun t => [t]) (fun _ _ => HfOutcome.httpErr) "" "hi" 500) :=
  summarize_fallback_on_provider_failure (fun t => [t]) (fun _ _ => HfOutcome.httpErr)
    "k" "hi" 500 (by decide) (fun _ _ => Or.inl rfl)

/-- C7: with no SerpAPI key, `search_web` raises the configuration error with
the state untouched and the same result whatever the provider would have
returned (so before any network request matters); with a key set it never
raises — an exception or a response without organic results yields `ok []`. -/
theorem search_web_config_error (q : String) (n : Nat) (s : ScraperState) :
    (s.serpapi_key = "" → ∀ outcome, search_web outcome q n s =
        (Except.error ConfigError.serpKeyNotSet, s)) ∧
    (s.serpapi_key ≠ "" →
      (search_web SearchOutcome.exn q n s).1 = Except.ok [] ∧
      (search_web SearchOutcome.noOrganic q n s).1 = Except.ok [] ∧
      ∀ outcome, ∃ r, (search_web outcome q n s).1 = Except.ok r) := by
  constructor
  · intro hkey outcome
    unfold search_web
    rw [if_pos hkey]
  · intro hkey
    refine ⟨?_, ?_, ?_⟩
    · unfold search_web; rw [if_neg hkey]
    · unfold search_web; rw [if_neg hkey]
    · intro outcome
      unfold search_web
      rw [if_neg hkey]
      cases outcome with
      | organic links => exact ⟨links.take n, rfl⟩
      | noOrganic => exact ⟨[], rfl⟩
      | exn => exact ⟨[], rfl⟩

/-- C7 witness: missing key raises the configuration error even when the
provider would have thrown; with a key, a provider exception gives `ok []`. -/
theorem search_web_config_error_witness :
    search_web SearchOutcome.exn "q" 5 (initState "" "") =
      (Except.error ConfigError.serpKeyNotSet, initState "" "") ∧
    (search_web SearchOutcome.exn "q" 5 (initState "k" "")).1 = Except.ok [] :=
  ⟨(search_web_config_error "q" 5 (initState "" "")).1 rfl SearchOutcome.exn,
   ((search_web_config_error "q" 5 (initState "k" "")).2 (by decide)).1⟩

/-- A state with a SerpAPI key and a stale last-search-results cache. -/
def cacheState : ScraperState := { initState "k" "" with search_results := ["old"] }

/-- C8 counterexample: an invocation of `search_web` that completes (returning
`ok []` on a response without organic results) leaves the last-search-results
cache holding its prior value `["old"]` — the cache is not overwritten. -/
theorem search_web_cache_not_overwritten :
    (search_web SearchOutcome.noOrganic "q" 5 cacheState).2.search_results = ["old"] ∧
    (search_web SearchOutcome.noOrganic "q" 5 cacheState).1 = Except.ok [] :=
  ⟨rfl, rfl⟩

/-- C8 amended: `search_web` overwrites the last-search-results cache exactly
when the provider response carries organic results (setting it to the
truncated link list); on a no-results response, a provider exception, or the
missing-key error, the cache keeps its prior value. -/
theorem search_web_cache_update (q : String) (n : Nat) (s : ScraperState) :
    (s.serpapi_key ≠ "" → ∀ links,
      (search_web (SearchOutcome.organic links) q n s).2.search_results = links.take n ∧
      (search_web (SearchOutcome.organic links) q n s).1 = Except.ok (links.take n)) ∧
    (∀ outcome, outcome = SearchOutcome.noOrganic ∨ outcome = SearchOutcome.exn →
      (search_web outcome q n s).2.search_results = s.search_results) ∧
    (s.serpapi_key = "" → ∀ outcome,
      (search_web outcome q n s).2.search_results = s.search_results) := by
  refine ⟨?_, ?_, ?_⟩
  · intro hkey links
    unfold search_web
    rw [if_neg hkey]
    exact ⟨rfl, rfl⟩
  · intro outcome hout
    unfold search_web
    split
    · rfl
    · rcases hout with h | h <;> subst h <;> rfl
  · intro hkey outcome
    unfold search_web
    rw [if_pos hkey]

/-- C8 amended witness: organic results overwrite the cache with the truncated
links; an exception leaves the stale cache in place. -/
theorem search_web_cache_update_witness :
    (search_web (SearchOutcome.organic ["a", "b"]) "q" 1
        (initState "k" "")).2.search_results = (["a", "b"] : List String).take 1 ∧
    (search_web SearchOutcome.exn "q" 1 cacheState).2.search_results =
      cacheState.search_results :=
  ⟨((search_web_cache_update "q" 1 (initState "k" "")).1 (by decide) ["a", "b"]).1,
   (search_web_cache_update "q" 1 cacheState).2.1 SearchOutcome.exn (Or.inr rfl)⟩

theorem decodeStrs_encode (l : List String) :
    decodeStrs (l.map Json.str) = some l := by
  induction l with
  | nil => rfl
  | cons a rest ih => simp [decodeStrs, decodeStr, ih]

theorem decodeStrList_encode (l : List String) :
    decodeStrList (Json.arr (l.map Json.str)) = some l := by
  unfold decodeStrList
  exact decodeStrs_encode l

theorem decodeDoc_encodeDoc (d : Document) : decodeDoc (encodeDoc d) = some d := by
  obtain ⟨title, text, pd, authors, top, src⟩ := d
  cases pd with
  | none =>
      simp [encodeDoc, decodeDoc, alistLookup, decodeStr, decodeOptStr,
        decodeStrList, decodeStrs_encode]
  | some p =>
      simp [encodeDoc, decodeDoc, alistLookup, decodeStr, decodeOptStr,
        decodeStrList, decodeStrs_encode]

theorem decodeEntries_content (l : List (String × Document)) :
    decodeEntries decodeDoc (l.map (fun p => (p.1, encodeDoc p.2))) = some l := by
  induction l with
  | nil => rfl
  | cons p rest ih =>
      obtain ⟨u, d⟩ := p
      simp [decodeEntries, decodeDoc_encodeDoc, ih]

theorem decodeEntries_summaries (l : List (String × String)) :
    decodeEntries decodeStr (l.map (fun p => (p.1, Json.str p.2))) = some l := by
  induction l with
  | nil => rfl
  | cons p rest ih =>
      obtain ⟨u, t⟩ := p
      simp [decodeEntries, decodeStr, ih]

/-- C9: reloading the structured document written by `save_results` yields a
record whose `content`, `summaries` and `failed_urls` (and `search_results`)
fields equal the in-memory state at save time. -/
theorem save_results_roundtrip (s : ScraperState) :
    loadResults (save_results s) =
      some { search_results := s.search_results, content := s.content,
             summaries := s.summaries, failed_urls := s.failed_urls } := by
  unfold loadResults save_results
  simp [alistLookup, decodeObjWith, decodeStrList_encode, decodeEntries_content,
    decodeEntries_summaries]

end Webscraper
